import Mathlib

/-!
Shallow embedding of the blog-generation Lambda backend (`main.py`).

Python values that can appear in request/response dictionaries are modelled by
`PyVal` (strings, integers, booleans); dictionaries by association lists with
first-match lookup; a raised Python exception by the `Except.error` branch
carrying `str(e)`.  The two network effects (Bedrock inference, S3 put) are
modelled by oracle parameters bundled in `Env`:
  * `jsonParse` models `json.loads` on a string body, `none` standing for a
    `json.JSONDecodeError`;
  * `infer` models the outcome of the whole guarded Bedrock block: `raises`
    covers any exception inside the `try` (transport error, timeout, malformed
    response body), `returns g` covers a parsed response whose
    `generation` field extracted with default `""` is the string `g` (an
    absent field is `returns ""`);
  * `now` is the wall-clock instant sampled by `datetime.now()`;
  * `putRaises` tells whether `s3.put_object` raises.
-/

namespace BlogApp

/-- Python values occurring in the handler's dictionaries. -/
inductive PyVal where
  | str (s : String)
  | int (n : Int)
  | bool (b : Bool)
  deriving DecidableEq, Repr

/-- A Python dict with string keys, as an association list (first match wins). -/
abbrev Dict := List (String × PyVal)

/-- Lookup of a key in a dict, `none` when absent (`d[k]` / membership test). -/
def getField : Dict → String → Option PyVal
  | [], _ => none
  | (k, v) :: rest, key => if k = key then some v else getField rest key

/-- Python `d.get(key, default)`. -/
def pyGet (d : Dict) (key : String) (dflt : PyVal) : PyVal :=
  (getField d key).getD dflt

/-- The Python type name of a value, as it appears in error messages. -/
def pyTypeName : PyVal → String
  | .str _ => "str"
  | .int _ => "int"
  | .bool _ => "bool"

/-- `str(e)` for the `AttributeError` raised when calling a string method on a
non-string value, e.g. `\x27int\x27 object has no attribute \x27strip\x27`. -/
def attrErrorMsg (v : PyVal) (attr : String) : String :=
  "\x27" ++ pyTypeName v ++ "\x27 object has no attribute \x27" ++ attr ++ "\x27"

/-- Python `str(v)` as used by f-string interpolation. -/
def pyStr : PyVal → String
  | .str s => s
  | .int n => toString n
  | .bool b => if b then "True" else "False"

/-- Python `s.strip()`: drop whitespace from both ends. -/
def pyStrip (s : String) : String :=
  ⟨((s.data.dropWhile Char.isWhitespace).reverse.dropWhile
      Char.isWhitespace).reverse⟩

/-- Python `s.lower()` (ASCII case folding, as `Char.toLower`). -/
def pyLower (s : String) : String :=
  ⟨s.data.map Char.toLower⟩

/-- The `body` field of the incoming event: a raw JSON string or an
already-parsed dict (`isinstance(event.get(\x27body\x27), str)` dispatch). -/
inductive BodyField where
  | strBody (raw : String)
  | dictBody (d : Dict)
  deriving Repr

/-- The incoming event; only its `body` key is consulted by the handler. -/
structure Event where
  body : Option BodyField

/-- Outcome of the guarded Bedrock invocation block (see module comment). -/
inductive InferOutcome where
  | raises
  | returns (generation : String)
  deriving Repr

/-- A calendar instant, the fields `datetime.now()` exposes to `strftime`. -/
structure DateTime where
  year : Nat
  month : Nat
  day : Nat
  hour : Nat
  minute : Nat
  second : Nat
  deriving Repr, DecidableEq

/-- The environment of one invocation: the external effects' outcomes. -/
structure Env where
  jsonParse : String → Option Dict
  infer : InferOutcome
  now : DateTime
  putRaises : Bool

/-- Zero-padding of a decimal number to width `w`, as `strftime` does. -/
def zpad (w : Nat) (n : Nat) : String :=
  let s := toString n
  if s.length < w then String.mk (List.replicate (w - s.length) '0') ++ s else s

/-- `datetime.now().strftime("%Y%m%d-%H%M%S")` (main.py line 72). -/
def strftime_Ymd_HMS (t : DateTime) : String :=
  zpad 4 t.year ++ zpad 2 t.month ++ zpad 2 t.day ++ "-" ++
    zpad 2 t.hour ++ zpad 2 t.minute ++ zpad 2 t.second

/-- The fixed fallback text substituted for unusable inference output. -/
def fallbackMessage : String := "Failed to generate content. Please try again."

/-- The normalization step of `content_generation` (main.py lines 56-60):
strip, then substitute the fallback when nothing is left. -/
def normalizeGeneration (g : String) : String :=
  let generated_text := pyStrip g
  if generated_text = "" then fallbackMessage else generated_text

/-- The f-string prompt of `content_generation` (main.py lines 16-24),
with its exact literal text, `expertise_level.lower()` and the three
interpolations. -/
def full_prompt (blogtopic : String) (expertise_level : String)
    (additional_context : String) : String :=
  "You are a helpful AI assistant. Follow these instructions exactly:\n    \n    1.Generate a 200-300 word informative blog post on the following topic for a "
    ++ pyLower expertise_level
    ++ " audience.\n    3.Do NOT add any comments, disclaimers, or follow-up dialogue. Always return the blog content as plain text.\n\n    Topic: "
    ++ blogtopic
    ++ "\n    Expertise Level: "
    ++ expertise_level
    ++ "\n    Additional Context: "
    ++ additional_context
    ++ "\n    "

/-- `retries={\x27max_attempts\x27: 3}` of the botocore config. -/
structure RetriesConfig where
  max_attempts : Nat
  deriving Repr, DecidableEq

/-- `botocore.config.Config` as used for the Bedrock client. -/
structure BotoConfig where
  read_timeout : Nat
  retries : RetriesConfig
  deriving Repr, DecidableEq

/-- The configuration record handed to `boto3.client` for Bedrock
(main.py lines 39-42): the transport timeout/retry parameters travel as
client configuration. -/
def bedrockClientConfig : BotoConfig := ⟨300, ⟨3⟩⟩

/-- The JSON request payload of `invoke_model` (main.py lines 26-31):
prompt, max_gen_len, temperature, top_p. -/
structure InferencePayload where
  prompt : String
  max_gen_len : Nat
  temperature : Rat
  top_p : Rat
  deriving Repr, DecidableEq

/-- The `body` dict built by `content_generation` before invoking Bedrock. -/
def inferenceRequestBody (p : String) : InferencePayload :=
  ⟨p, 512, 0.5, 0.9⟩

/-- `content_generation` (main.py lines 11-66).  The f-string is evaluated
before the `try` block, so `.lower()` on a non-string level raises out of the
function (`Except.error`); every failure inside the guarded block, and an
empty/whitespace `generation`, produce the fallback dict. -/
def content_generation (blogtopic : String) (expertise_level : PyVal)
    (additional_context : PyVal) (infer : InferOutcome) : Except String Dict :=
  match expertise_level with
  | .str lvl =>
    let _full_prompt := full_prompt blogtopic lvl (pyStr additional_context)
    match infer with
    | .raises => .ok [("blog", .str fallbackMessage)]
    | .returns g => .ok [("blog", .str (normalizeGeneration g))]
  | v => .error (attrErrorMsg v "lower")

/-- The S3 `put_object` call: body, bucket, key, content type. -/
structure PutRequest where
  body : String
  bucket : String
  key : String
  contentType : String
  deriving Repr, DecidableEq

/-- `s3_uploader` (main.py lines 68-88).  Returns the boolean the function
returns, paired with the put request it attempted (`none` when the
`AttributeError` on a non-string blog value aborts before the call).  Every
exception is caught and converted to `false`. -/
def s3_uploader (content : Dict) (bucket : String) (keyPrefix : String)
    (now : DateTime) (putRaises : Bool) : Bool × Option PutRequest :=
  let timestamp := strftime_Ymd_HMS now
  let key := keyPrefix ++ "/" ++ timestamp ++ ".txt"
  match pyGet content "blog" (.str "") with
  | .str s =>
    let blog_content := pyStrip s
    let req : PutRequest := ⟨blog_content, bucket, key, "text/plain"⟩
    if putRaises then (false, some req) else (true, some req)
  | _ => (false, none)

/-- The dict `validate_input` operates on: the parsed string body, the dict
body, or `{}` when the event has no body (main.py lines 93-96).  `none` means
`json.loads` raised `JSONDecodeError`. -/
def bodyDict (jsonParse : String → Option Dict) (event : Event) : Option Dict :=
  match event.body with
  | some (.strBody raw) => jsonParse raw
  | some (.dictBody d) => some d
  | none => some []

/-- Field extraction of `validate_input` (main.py lines 98-106) together with
its exception handling: a raised `ValueError`/`AttributeError` becomes
`Except.error str(e)`. -/
def extract_fields (body : Dict) : Except String (String × PyVal × PyVal) :=
  match pyGet body "blogTopic" (.str "") with
  | .str s =>
    let blog_topic := pyStrip s
    if blog_topic = "" then .error "Blog topic is required"
    else .ok (blog_topic, pyGet body "level" (.str "Intermediate"),
      pyGet body "context" (.str ""))
  | v => .error (attrErrorMsg v "strip")

/-- `validate_input` (main.py lines 90-110): every exception surfaces as a
`ValueError`, whose message is the `Except.error` payload. -/
def validate_input (jsonParse : String → Option Dict) (event : Event) :
    Except String (String × PyVal × PyVal) :=
  match bodyDict jsonParse event with
  | none => .error "Invalid JSON payload"
  | some d => extract_fields d

/-- The Lambda response envelope; `body` is the dict that `json.dumps`
serializes. -/
structure Response where
  statusCode : Nat
  headers : List (String × String)
  body : Dict
  deriving Repr, DecidableEq

/-- `format_response` (main.py lines 112-121). -/
def format_response (content : Dict) (status_code : Nat) : Response :=
  ⟨status_code,
    [("Content-Type", "application/json"), ("Access-Control-Allow-Origin", "*")],
    content⟩

/-- `lambda_handler` (main.py lines 123-169), paired with the S3 put request
the invocation attempted (the handler itself discards it).  `ValueError` from
validation gives 400, any other exception (here: `.lower()` on a non-string
level) gives 500, and both storage outcomes give 200 with only the message
differing. -/
def lambda_handler (env : Env) (event : Event) : Response × Option PutRequest :=
  match validate_input env.jsonParse event with
  | .error msg =>
    (format_response [("error", .str msg), ("success", .bool false)] 400, none)
  | .ok (blog_topic, expertise_level, additional_context) =>
    match content_generation blog_topic expertise_level additional_context
        env.infer with
    | .error details =>
      (format_response [("error", .str "Internal server error"),
        ("details", .str details), ("success", .bool false)] 500, none)
    | .ok generated_content =>
      let upload := s3_uploader generated_content "blogcreatorbucket"
        "generated-content" env.now env.putRaises
      if upload.1 then
        (format_response [("blog", pyGet generated_content "blog" (.str "")),
          ("message", .str "Blog content successfully generated and uploaded.")]
          200, upload.2)
      else
        (format_response [("blog", pyGet generated_content "blog" (.str "")),
          ("message", .str "Failed to upload blog content to S3.")] 200,
          upload.2)

/-- A dict field that, when present, holds a string. -/
def strFieldOrAbsent (d : Dict) (key : String) : Prop :=
  ∀ v, getField d key = some v → ∃ s, v = PyVal.str s

/-- The prompt as the spec describes it (§4.2): a narrative instruction
sentence asking for a 200-300 word post for the lowercased audience level,
an instruction to return plain text with no comments, disclaimers or
follow-up dialogue, then topic, level and context listed verbatim.  Stated
separately from `full_prompt` so the two can be compared. -/
def promptSpecShape (t l c : String) : String :=
  "You are a helpful AI assistant. Follow these instructions exactly:\n    \n    1."
  ++ "Generate a 200-300 word informative blog post on the following topic for a "
  ++ pyLower l ++ " audience."
  ++ "\n    3." ++ "Do NOT add any comments, disclaimers, or follow-up dialogue."
  ++ " " ++ "Always return the blog content as plain text."
  ++ "\n\n    " ++ "Topic: " ++ t
  ++ "\n    " ++ "Expertise Level: " ++ l
  ++ "\n    " ++ "Additional Context: " ++ c
  ++ "\n    "

/-- The validation-failure condition exactly as claim C4 words it: blogTopic
absent, empty, or whitespace-only after trimming, or a string-valued body
that is not valid JSON. -/
def claimedValidationCond (jp : String → Option Dict) (event : Event) : Prop :=
  (∃ raw, event.body = some (.strBody raw) ∧ jp raw = none) ∨
  (∃ d, bodyDict jp event = some d ∧
    (getField d "blogTopic" = none ∨
      ∃ s, getField d "blogTopic" = some (.str s) ∧ pyStrip s = ""))

/-- A concrete environment: unparsable string bodies, an inference failure,
a fixed clock, and a successful S3 put. -/
def env0 : Env := ⟨fun _ => none, .raises, ⟨2025, 1, 2, 3, 4, 5⟩, false⟩

/-- A fixed clock instant for concrete runs. -/
def now0 : DateTime := ⟨2025, 1, 2, 3, 4, 5⟩

/-- A well-formed request body. -/
def d1 : Dict :=
  [("blogTopic", PyVal.str "rust ownership"), ("level", PyVal.str "Advanced"),
    ("context", PyVal.str "")]

/-- The event carrying `d1` as an already-parsed dict. -/
def ev1 : Event := ⟨some (.dictBody d1)⟩

/-- A body whose blogTopic is a number rather than a string. -/
def dIntTopic : Dict := [("blogTopic", PyVal.int 42)]

/-- The event carrying `dIntTopic`. -/
def evIntTopic : Event := ⟨some (.dictBody dIntTopic)⟩

/-- A body with a valid topic but a numeric level. -/
def dIntLevel : Dict :=
  [("blogTopic", PyVal.str "rust ownership"), ("level", PyVal.int 5)]

/-- The event carrying `dIntLevel`. -/
def evIntLevel : Event := ⟨some (.dictBody dIntLevel)⟩

/-- A body whose blogTopic is whitespace-only. -/
def dBlankTopic : Dict := [("blogTopic", PyVal.str "   ")]

/-- The event carrying `dBlankTopic`. -/
def evBlankTopic : Event := ⟨some (.dictBody dBlankTopic)⟩

/-- A body whose blogTopic is a boolean. -/
def dBoolTopic : Dict := [("blogTopic", PyVal.bool true)]

/-- The event carrying `dBoolTopic`. -/
def evBoolTopic : Event := ⟨some (.dictBody dBoolTopic)⟩

/-- The fallback text is not the empty string. -/
theorem fallbackMessage_ne_empty : fallbackMessage ≠ "" := by decide

/-- Normalization never returns the empty string. -/
theorem normalizeGeneration_ne_empty (g : String) : normalizeGeneration g ≠ "" := by
  by_cases h : pyStrip g = ""
  · simp [normalizeGeneration, h, fallbackMessage]
  · simp [normalizeGeneration, h]

/-- With a string-valued level, `content_generation` always returns a dict
whose single `blog` entry is a non-empty string. -/
theorem content_generation_str (t lvl : String) (c : PyVal) (inf : InferOutcome) :
    ∃ b : String,
      content_generation t (.str lvl) c inf = .ok [("blog", .str b)] ∧ b ≠ "" := by
  cases inf with
  | raises => exact ⟨fallbackMessage, rfl, fallbackMessage_ne_empty⟩
  | returns g => exact ⟨normalizeGeneration g, rfl, normalizeGeneration_ne_empty g⟩

/-- Successful validation, spelled out from a string blogTopic with non-empty
trim in the effective body dict. -/
theorem validate_input_ok (jp : String → Option Dict) (event : Event)
    (d : Dict) (s : String)
    (hd : bodyDict jp event = some d)
    (ht : getField d "blogTopic" = some (.str s))
    (hne : pyStrip s ≠ "") :
    validate_input jp event =
      .ok (pyStrip s, pyGet d "level" (.str "Intermediate"),
        pyGet d "context" (.str "")) := by
  simp [validate_input, hd, extract_fields, pyGet, ht, hne]

/-- A `d.get` with a string default yields a string whenever the field is
string-valued or absent. -/
theorem pyGet_str_of_strFieldOrAbsent (d : Dict) (key : String) (dflt : String)
    (h : strFieldOrAbsent d key) :
    ∃ s, pyGet d key (.str dflt) = .str s := by
  cases hk : getField d key with
  | none => exact ⟨dflt, by simp [pyGet, hk]⟩
  | some v =>
    obtain ⟨s, rfl⟩ := h v hk
    exact ⟨s, by simp [pyGet, hk]⟩

/-- Evaluation of the whole handler along the success path: once validation
returns a string level and the generation dict is known, the response is a
200 whose blog field is the generated string, whose message reflects the
storage outcome, and whose attempted put request carries the timestamped key
under the fixed bucket and prefix. -/
theorem handler_tail (env : Env) (event : Event) (t lvl : String) (c : PyVal)
    (b : String)
    (hv : validate_input env.jsonParse event = .ok (t, .str lvl, c))
    (hb : content_generation t (.str lvl) c env.infer =
      .ok [("blog", .str b)]) :
    (lambda_handler env event).1.statusCode = 200 ∧
    getField (lambda_handler env event).1.body "blog" = some (.str b) ∧
    getField (lambda_handler env event).1.body "message" =
      some (.str (if env.putRaises then "Failed to upload blog content to S3."
        else "Blog content successfully generated and uploaded.")) ∧
    (lambda_handler env event).2 = some ⟨pyStrip b, "blogcreatorbucket",
      "generated-content/" ++ strftime_Ymd_HMS env.now ++ ".txt",
      "text/plain"⟩ := by
  cases hpr : env.putRaises <;>
    simp [lambda_handler, hv, hb, s3_uploader, pyGet, getField,
      format_response, hpr]

/-- C1: every request whose body yields a non-empty blogTopic after trimming,
with string-valued (or absent) level and context fields, receives a response
with statusCode 200 whose blog field is a non-empty string — for every
inference outcome and every storage outcome. -/
theorem handler_valid_topic_200_nonempty_blog
    (env : Env) (event : Event) (d : Dict) (s : String)
    (hd : bodyDict env.jsonParse event = some d)
    (ht : getField d "blogTopic" = some (.str s))
    (hne : pyStrip s ≠ "")
    (hl : strFieldOrAbsent d "level")
    (_hc : strFieldOrAbsent d "context") :
    (lambda_handler env event).1.statusCode = 200 ∧
      ∃ b : String,
        getField (lambda_handler env event).1.body "blog" = some (.str b) ∧
          b ≠ "" := by
  have hv := validate_input_ok env.jsonParse event d s hd ht hne
  obtain ⟨lvl, hlvl⟩ := pyGet_str_of_strFieldOrAbsent d "level" "Intermediate" hl
  rw [hlvl] at hv
  obtain ⟨b, hb, hbne⟩ :=
    content_generation_str (pyStrip s) lvl (pyGet d "context" (.str "")) env.infer
  obtain ⟨h200, hblog, -, -⟩ := handler_tail env event (pyStrip s) lvl
    (pyGet d "context" (.str "")) b hv hb
  exact ⟨h200, b, hblog, hbne⟩

/-- C2: when the guarded inference block raises (any exception, including a
timeout or malformed response) or yields a generation that is absent, empty
or whitespace-only, the response still has statusCode 200 and its blog field
is exactly the fixed fallback string. -/
theorem handler_inference_failure_fallback
    (env : Env) (event : Event) (t lvl : String) (c : PyVal)
    (hv : validate_input env.jsonParse event = .ok (t, .str lvl, c))
    (hinf : env.infer = .raises ∨ ∃ g, env.infer = .returns g ∧ pyStrip g = "") :
    (lambda_handler env event).1.statusCode = 200 ∧
      getField (lambda_handler env event).1.body "blog" =
        some (.str fallbackMessage) := by
  have hb : content_generation t (.str lvl) c env.infer =
      .ok [("blog", .str fallbackMessage)] := by
    rcases hinf with h | ⟨g, hg, hstrip⟩
    · rw [h]; rfl
    · rw [hg]; simp [content_generation, normalizeGeneration, hstrip]
  obtain ⟨h200, hblog, -, -⟩ := handler_tail env event t lvl c fallbackMessage hv hb
  exact ⟨h200, hblog⟩

/-- C3: a failing S3 put makes `s3_uploader` return false rather than raise,
and changes neither the 200 statusCode nor the blog field of the response —
only the message field, which reports the upload failure instead of
success. -/
theorem handler_storage_failure_frame
    (jp : String → Option Dict) (inf : InferOutcome) (now : DateTime)
    (event : Event) (t lvl : String) (c : PyVal)
    (hv : validate_input jp event = .ok (t, .str lvl, c)) :
    (∀ content bucket kp t2, (s3_uploader content bucket kp t2 true).1 = false) ∧
    (lambda_handler ⟨jp, inf, now, true⟩ event).1.statusCode = 200 ∧
    getField (lambda_handler ⟨jp, inf, now, true⟩ event).1.body "blog" =
      getField (lambda_handler ⟨jp, inf, now, false⟩ event).1.body "blog" ∧
    getField (lambda_handler ⟨jp, inf, now, true⟩ event).1.body "message" =
      some (.str "Failed to upload blog content to S3.") ∧
    getField (lambda_handler ⟨jp, inf, now, false⟩ event).1.body "message" =
      some (.str "Blog content successfully generated and uploaded.") ∧
    ("Failed to upload blog content to S3." : String) ≠
      "Blog content successfully generated and uploaded." := by
  obtain ⟨b, hb, -⟩ := content_generation_str t lvl c inf
  obtain ⟨hT200, hTblog, hTmsg, -⟩ :=
    handler_tail ⟨jp, inf, now, true⟩ event t lvl c b hv hb
  obtain ⟨-, hFblog, hFmsg, -⟩ :=
    handler_tail ⟨jp, inf, now, false⟩ event t lvl c b hv hb
  refine ⟨?_, hT200, ?_, ?_, ?_, by decide⟩
  · intro content bucket kp t2
    cases hpv : pyGet content "blog" (.str "") <;> simp [s3_uploader, hpv]
  · rw [hTblog, hFblog]
  · simpa using hTmsg
  · simpa using hFmsg

/-- C4 counterexample: a body whose blogTopic is the number 42 fails
validation (the handler answers 400), although the topic is neither absent
nor an empty/whitespace string and the body is not an unparsable string —
so validation does not fail *exactly* under the conditions C4 lists. -/
theorem validation_condition_counterexample :
    (∃ msg, validate_input env0.jsonParse evIntTopic = .error msg) ∧
    (lambda_handler env0 evIntTopic).1.statusCode = 400 ∧
    ¬ claimedValidationCond env0.jsonParse evIntTopic := by
  refine ⟨⟨attrErrorMsg (.int 42) "strip", rfl⟩, rfl, ?_⟩
  rintro (⟨raw, hraw, -⟩ | ⟨d, hd, hcond⟩)
  · simp [evIntTopic] at hraw
  · have hdd : d = dIntTopic := by
      simpa [bodyDict, evIntTopic] using hd.symm
    subst hdd
    rcases hcond with h | ⟨s, hs, -⟩
    · simp [getField, dIntTopic] at h
    · simp [getField, dIntTopic] at hs

/-- C4 (amended): restricted to events whose effective body dict carries a
string-valued or absent blogTopic, validation fails exactly when the topic is
absent or empty/whitespace-only after trimming, or when a string-valued body
is not valid JSON; and every validation failure produces a 400 response whose
error field is the validation message and whose success field is false. -/
theorem validation_fails_iff_amended
    (env : Env) (event : Event)
    (htopic : ∀ d, bodyDict env.jsonParse event = some d →
      strFieldOrAbsent d "blogTopic") :
    ((∃ msg, validate_input env.jsonParse event = .error msg) ↔
      claimedValidationCond env.jsonParse event) ∧
    (∀ msg, validate_input env.jsonParse event = .error msg →
      (lambda_handler env event).1.statusCode = 400 ∧
      getField (lambda_handler env event).1.body "error" = some (.str msg) ∧
      getField (lambda_handler env event).1.body "success" =
        some (.bool false)) := by
  constructor
  · constructor
    · rintro ⟨msg, hmsg⟩
      cases hbd : bodyDict env.jsonParse event with
      | none =>
        left
        cases hev : event.body with
        | none => simp [bodyDict, hev] at hbd
        | some bf =>
          cases bf with
          | strBody raw => exact ⟨raw, rfl, by simpa [bodyDict, hev] using hbd⟩
          | dictBody d => simp [bodyDict, hev] at hbd
      | some d =>
        right
        refine ⟨d, hbd, ?_⟩
        have hex : extract_fields d = .error msg := by
          simpa [validate_input, hbd] using hmsg
        cases hg : getField d "blogTopic" with
        | none => exact Or.inl rfl
        | some v =>
          obtain ⟨s, rfl⟩ := htopic d hbd v hg
          by_cases hps : pyStrip s = ""
          · exact Or.inr ⟨s, rfl, hps⟩
          · simp [extract_fields, pyGet, hg, hps] at hex
    · rintro (⟨raw, hraw, hjp⟩ | ⟨d, hd, h⟩)
      · exact ⟨"Invalid JSON payload", by simp [validate_input, bodyDict, hraw, hjp]⟩
      · rcases h with h | ⟨s, hs, hps⟩
        · have hps0 : pyStrip "" = "" := rfl
          exact ⟨"Blog topic is required",
            by simp [validate_input, hd, extract_fields, pyGet, h, hps0]⟩
        · exact ⟨"Blog topic is required",
            by simp [validate_input, hd, extract_fields, pyGet, hs, hps]⟩
  · intro msg hmsg
    simp [lambda_handler, hmsg, format_response, getField]

/-- C5: normalization is idempotent on already-normalized text — a trimmed,
non-empty string passes through unchanged. -/
theorem normalize_idempotent (s : String) (h1 : pyStrip s = s) (h2 : s ≠ "") :
    normalizeGeneration s = s := by
  simp [normalizeGeneration, h1, h2]

/-- C6: on every run that reaches the storage write, the attempted put uses
the key `generated-content/` + the instant formatted as YYYYMMDD-HHmmss (each
component zero-padded) + `.txt`, with content type text/plain. -/
theorem persistence_key_format
    (env : Env) (event : Event) (t lvl : String) (c : PyVal)
    (hv : validate_input env.jsonParse event = .ok (t, .str lvl, c)) :
    ∃ req : PutRequest,
      (lambda_handler env event).2 = some req ∧
      req.key = "generated-content/" ++ strftime_Ymd_HMS env.now ++ ".txt" ∧
      req.contentType = "text/plain" ∧
      strftime_Ymd_HMS env.now =
        zpad 4 env.now.year ++ zpad 2 env.now.month ++ zpad 2 env.now.day ++
          "-" ++ zpad 2 env.now.hour ++ zpad 2 env.now.minute ++
          zpad 2 env.now.second := by
  obtain ⟨b, hb, -⟩ := content_generation_str t lvl c env.infer
  obtain ⟨-, -, -, hput⟩ := handler_tail env event t lvl c b hv hb
  exact ⟨_, hput, rfl, rfl, rfl⟩

set_option maxRecDepth 4000 in
/-- C7: the prompt builder is a function of (topic, level, context) alone and
its output is literally the narrative instruction asking for a 200-300 word
post for the lowercased audience level, the plain-text / no comments,
disclaimers or follow-up dialogue instruction, followed by the topic, level
and context listed verbatim. -/
theorem prompt_builder_shape (t l c : String) :
    full_prompt t l c = promptSpecShape t l c := by
  refine String.ext ?_
  simp [full_prompt, promptSpecShape, String.data_append, List.append_assoc]

/-- C8: the inference request payload fixes max_gen_len 512, temperature 0.5
and top_p 0.9 around the prompt, and the transport configuration record
passed to the client fixes a 300 second read timeout and at most 3 retry
attempts. -/
theorem inference_call_configuration (p : String) :
    (inferenceRequestBody p).prompt = p ∧
    (inferenceRequestBody p).max_gen_len = 512 ∧
    (inferenceRequestBody p).temperature = 0.5 ∧
    (inferenceRequestBody p).top_p = 0.9 ∧
    bedrockClientConfig.read_timeout = 300 ∧
    bedrockClientConfig.retries.max_attempts = 3 :=
  ⟨rfl, rfl, rfl, rfl, rfl, rfl⟩

/-- C9: a valid non-empty blogTopic together with a non-string level value
makes the handler answer 500 with the generic error body, because `.lower()`
raises during prompt construction, before the error-absorbing block. -/
theorem handler_nonstring_level_500
    (env : Env) (event : Event) (d : Dict) (s : String) (v : PyVal)
    (hd : bodyDict env.jsonParse event = some d)
    (ht : getField d "blogTopic" = some (.str s))
    (hne : pyStrip s ≠ "")
    (hlv : getField d "level" = some v)
    (hns : ∀ u : String, v ≠ .str u) :
    (lambda_handler env event).1.statusCode = 500 ∧
    getField (lambda_handler env event).1.body "error" =
      some (.str "Internal server error") ∧
    getField (lambda_handler env event).1.body "details" =
      some (.str (attrErrorMsg v "lower")) := by
  have hv := validate_input_ok env.jsonParse event d s hd ht hne
  have hlev : pyGet d "level" (.str "Intermediate") = v := by simp [pyGet, hlv]
  rw [hlev] at hv
  have hcg : content_generation (pyStrip s) v (pyGet d "context" (.str ""))
      env.infer = .error (attrErrorMsg v "lower") := by
    cases v with
    | str u => exact absurd rfl (hns u)
    | int n => rfl
    | bool b => rfl
  simp [lambda_handler, hv, hcg, format_response, getField]

/-- C10: every exception of the field-extraction step surfaces as a 400
response whose error field is that exception's message and whose success
field is false — in particular a non-string blogTopic value turns into the
AttributeError message for `strip` — and never as a 500. -/
theorem extraction_errors_400
    (env : Env) (event : Event) (d : Dict)
    (hd : bodyDict env.jsonParse event = some d) :
    (∀ msg, extract_fields d = .error msg →
      (lambda_handler env event).1.statusCode = 400 ∧
      getField (lambda_handler env event).1.body "error" = some (.str msg) ∧
      getField (lambda_handler env event).1.body "success" =
        some (.bool false)) ∧
    (∀ v, getField d "blogTopic" = some v → (∀ u : String, v ≠ .str u) →
      extract_fields d = .error (attrErrorMsg v "strip")) := by
  constructor
  · intro msg hmsg
    have hv : validate_input env.jsonParse event = .error msg := by
      simp [validate_input, hd, hmsg]
    simp [lambda_handler, hv, format_response, getField]
  · intro v hgv hns
    cases v with
    | str u => exact absurd rfl (hns u)
    | int n => simp [extract_fields, pyGet, hgv]
    | bool b => simp [extract_fields, pyGet, hgv]

/-- C1 witness: the concrete valid request `ev1` under environment `env0`. -/
theorem handler_valid_topic_200_nonempty_blog_witness :
    (lambda_handler env0 ev1).1.statusCode = 200 ∧
      ∃ b : String,
        getField (lambda_handler env0 ev1).1.body "blog" = some (.str b) ∧
          b ≠ "" :=
  handler_valid_topic_200_nonempty_blog env0 ev1 d1 "rust ownership" rfl rfl
    (by decide)
    (by intro v h; simp [d1, getField] at h; exact ⟨"Advanced", h.symm⟩)
    (by intro v h; simp [d1, getField] at h; exact ⟨"", h.symm⟩)

/-- C2 witness: under `env0` the inference block raises, so the concrete
response carries the fallback text with status 200. -/
theorem handler_inference_failure_fallback_witness :
    (lambda_handler env0 ev1).1.statusCode = 200 ∧
      getField (lambda_handler env0 ev1).1.body "blog" =
        some (.str fallbackMessage) :=
  handler_inference_failure_fallback env0 ev1 "rust ownership" "Advanced"
    (.str "") rfl (Or.inl rfl)

/-- C3 witness: the frame property at the concrete request `ev1`, comparing
the run whose put raises with the run whose put succeeds. -/
theorem handler_storage_failure_frame_witness :
    (s3_uploader [("blog", PyVal.str fallbackMessage)] "blogcreatorbucket"
        "generated-content" now0 true).1 = false ∧
    (lambda_handler ⟨fun _ => none, .raises, now0, true⟩ ev1).1.statusCode =
      200 ∧
    getField (lambda_handler ⟨fun _ => none, .raises, now0, true⟩ ev1).1.body
        "blog" =
      getField (lambda_handler ⟨fun _ => none, .raises, now0, false⟩ ev1).1.body
        "blog" ∧
    getField (lambda_handler ⟨fun _ => none, .raises, now0, true⟩ ev1).1.body
        "message" = some (.str "Failed to upload blog content to S3.") ∧
    getField (lambda_handler ⟨fun _ => none, .raises, now0, false⟩ ev1).1.body
        "message" =
      some (.str "Blog content successfully generated and uploaded.") ∧
    ("Failed to upload blog content to S3." : String) ≠
      "Blog content successfully generated and uploaded." :=
  have h := handler_storage_failure_frame (fun _ => none) .raises now0 ev1
    "rust ownership" "Advanced" (.str "") rfl
  ⟨h.1 [("blog", PyVal.str fallbackMessage)] "blogcreatorbucket"
      "generated-content" now0,
    h.2.1, h.2.2.1, h.2.2.2.1, h.2.2.2.2.1, h.2.2.2.2.2⟩

/-- C4 witness: the amended equivalence and the concrete 400 response for the
whitespace-only topic event. -/
theorem validation_fails_iff_amended_witness :
    ((∃ msg, validate_input env0.jsonParse evBlankTopic = .error msg) ↔
      claimedValidationCond env0.jsonParse evBlankTopic) ∧
    ((lambda_handler env0 evBlankTopic).1.statusCode = 400 ∧
      getField (lambda_handler env0 evBlankTopic).1.body "error" =
        some (.str "Blog topic is required") ∧
      getField (lambda_handler env0 evBlankTopic).1.body "success" =
        some (.bool false)) :=
  have h := validation_fails_iff_amended env0 evBlankTopic
    (by
      intro d hd v hv
      have hdd : dBlankTopic = d := by
        simpa [bodyDict, evBlankTopic] using hd
      subst hdd
      simp [dBlankTopic, getField] at hv
      exact ⟨"   ", hv.symm⟩)
  ⟨h.1, h.2 "Blog topic is required" rfl⟩

/-- C5 witness: a concrete trimmed non-empty string is left unchanged. -/
theorem normalize_idempotent_witness :
    normalizeGeneration "hello" = "hello" :=
  normalize_idempotent "hello" rfl (by decide)

/-- C6 witness: the put request attempted by the concrete run under `env0`,
whose clock reads 2025-01-02 03:04:05. -/
theorem persistence_key_format_witness :
    ∃ req : PutRequest,
      (lambda_handler env0 ev1).2 = some req ∧
      req.key = "generated-content/" ++ strftime_Ymd_HMS env0.now ++ ".txt" ∧
      req.contentType = "text/plain" ∧
      strftime_Ymd_HMS env0.now =
        zpad 4 env0.now.year ++ zpad 2 env0.now.month ++ zpad 2 env0.now.day ++
          "-" ++ zpad 2 env0.now.hour ++ zpad 2 env0.now.minute ++
          zpad 2 env0.now.second :=
  persistence_key_format env0 ev1 "rust ownership" "Advanced" (.str "") rfl

/-- C9 witness: the concrete request with numeric level 5 yields the 500
response with the AttributeError detail. -/
theorem handler_nonstring_level_500_witness :
    (lambda_handler env0 evIntLevel).1.statusCode = 500 ∧
    getField (lambda_handler env0 evIntLevel).1.body "error" =
      some (.str "Internal server error") ∧
    getField (lambda_handler env0 evIntLevel).1.body "details" =
      some (.str (attrErrorMsg (.int 5) "lower")) :=
  handler_nonstring_level_500 env0 evIntLevel dIntLevel "rust ownership"
    (.int 5) rfl rfl (by decide) rfl (fun u h => PyVal.noConfusion h)

/-- C10 witness: the boolean-topic request produces the concrete 400 whose
error field is the strip AttributeError message. -/
theorem extraction_errors_400_witness :
    (lambda_handler env0 evBoolTopic).1.statusCode = 400 ∧
    getField (lambda_handler env0 evBoolTopic).1.body "error" =
      some (.str (attrErrorMsg (.bool true) "strip")) ∧
    getField (lambda_handler env0 evBoolTopic).1.body "success" =
      some (.bool false) :=
  (extraction_errors_400 env0 evBoolTopic dBoolTopic rfl).1
    (attrErrorMsg (.bool true) "strip") rfl

end BlogApp
